import Mathlib

/-!
Verification development for the school lost-and-found application.

The definitions below are a shallow embedding of the application's data
model and operations:

* `src/src/lib/types.ts` — entity types (`Item`, `Claim`, the status/type/
  category string unions) and the zod validation schemas of the report
  intake wizard.
* `src/src/lib/actions.ts` — the data-access operations (`createItem`,
  `createClaim`, `updateItemStatus`, `updateClaimStatus`, `getItems`,
  `getAllItems`, `getAnalytics`).  The external relational store is
  modelled as a list of rows; an operation that can fail at the store is
  given the store result as an `Except` value (error = store failure),
  mirroring the `{ data, error }` shape returned by the store client.
* `src/src/app/admin/page.tsx` — the admin dashboard handlers and the
  conditions under which the approve / mark-returned / claim-decision
  controls are rendered.
* `src/src/app/report/page.tsx` (browse page part) — the fuzzy-search +
  filter pipeline `filteredItems`.  The external fuzzy-search library is
  represented by an opaque ranking function supplied as a parameter.

JavaScript strings are modelled by Lean `String` (a list of characters);
`toLowerCase` and `trim` are embedded character-by-character below for the
ASCII fragment exercised by the application.
-/

/-! ### Enumerated string unions from `types.ts` -/

inductive ItemStatus
  | pending
  | approved
  | returned
deriving DecidableEq, Repr

inductive ClaimStatus
  | pending
  | approved
  | denied
deriving DecidableEq, Repr

inductive ItemType
  | lost
  | found
deriving DecidableEq, Repr

inductive ItemCategory
  | electronics
  | clothing
  | books
  | accessories
  | sports
  | other
deriving DecidableEq, Repr

/-! ### Character-level embedding of the JavaScript string operations

`String.prototype.toLowerCase` is embedded for the ASCII range (codes
65–90 map to 97–122); `String.prototype.trim` strips the whitespace
characters space, tab, line feed and carriage return from both ends. -/

/-- Code-point test for an ASCII upper-case letter (A–Z, codes 65–90). -/
def isUpperAZ (c : Char) : Bool :=
  decide (65 ≤ c.toNat) && decide (c.toNat ≤ 90)

/-- Embedding of `toLowerCase` on a single character (ASCII fragment). -/
def lowerChar (c : Char) : Char :=
  if isUpperAZ c then Char.ofNat (c.toNat + 32) else c

/-- Whitespace recognised by `trim`: space (32), tab (9), LF (10), CR (13). -/
def isWs (c : Char) : Bool :=
  c.toNat == 32 || c.toNat == 9 || c.toNat == 10 || c.toNat == 13

/-- Remove trailing whitespace from a character list. -/
def trimRight : List Char → List Char
  | [] => []
  | c :: rest =>
    if (trimRight rest).isEmpty && isWs c then [] else c :: trimRight rest

/-- Embedding of `String.prototype.trim`: strip whitespace at both ends. -/
def trimList (l : List Char) : List Char :=
  trimRight (l.dropWhile isWs)

/-- Embedding of `formData.security_answer.toLowerCase().trim()`, the
normalization applied at item creation (`actions.ts` line 77) and claim
creation (`actions.ts` line 145). -/
def normalizeAnswer (s : String) : String :=
  String.mk (trimList (s.data.map lowerChar))

/-- Modelled from the spec: normalization described as trim surrounding
whitespace, then lower-case the entire string (spec section 4.2).  Used
only to compare the spec wording with the code order of operations. -/
def specNormalize (s : String) : String :=
  String.mk ((trimList s.data).map lowerChar)

lemma isUpperAZ_bounds (c : Char) (h : isUpperAZ c = true) :
    65 ≤ c.toNat ∧ c.toNat ≤ 90 := by
  unfold isUpperAZ at h
  simp only [Bool.and_eq_true, decide_eq_true_eq] at h
  exact h

lemma isWs_lowerChar (c : Char) : isWs (lowerChar c) = isWs c := by
  unfold lowerChar
  by_cases h : isUpperAZ c = true
  · rw [if_pos h]
    obtain ⟨h1, h2⟩ := isUpperAZ_bounds c h
    unfold isWs
    generalize c.toNat = n at h1 h2 ⊢
    interval_cases n <;> decide
  · rw [if_neg h]

lemma lowerChar_lowerChar (c : Char) : lowerChar (lowerChar c) = lowerChar c := by
  by_cases h : isUpperAZ c = true
  · obtain ⟨h1, h2⟩ := isUpperAZ_bounds c h
    unfold lowerChar
    rw [if_pos h]
    generalize c.toNat = n at h1 h2 ⊢
    interval_cases n <;> decide
  · unfold lowerChar
    rw [if_neg h, if_neg h]

lemma map_lowerChar_idem (l : List Char) :
    (l.map lowerChar).map lowerChar = l.map lowerChar := by
  rw [List.map_map]
  have h : lowerChar ∘ lowerChar = lowerChar := funext lowerChar_lowerChar
  rw [h]

lemma dropWhile_map_lower (l : List Char) :
    (l.map lowerChar).dropWhile isWs = (l.dropWhile isWs).map lowerChar := by
  induction l with
  | nil => rfl
  | cons c rest ih =>
    simp only [List.map_cons, List.dropWhile_cons, isWs_lowerChar]
    by_cases h : isWs c = true
    · simp [h, ih]
    · simp [h]

lemma isEmpty_map (f : Char → Char) (l : List Char) :
    (l.map f).isEmpty = l.isEmpty := by
  cases l <;> rfl

lemma trimRight_map_lower (l : List Char) :
    trimRight (l.map lowerChar) = (trimRight l).map lowerChar := by
  induction l with
  | nil => rfl
  | cons c rest ih =>
    simp only [List.map_cons, trimRight, ih, isEmpty_map, isWs_lowerChar]
    by_cases h : ((trimRight rest).isEmpty && isWs c) = true
    · simp [h]
    · simp [h]

lemma trimRight_idem (l : List Char) : trimRight (trimRight l) = trimRight l := by
  induction l with
  | nil => rfl
  | cons c rest ih =>
    by_cases h : ((trimRight rest).isEmpty && isWs c) = true
    · simp [trimRight, h]
    · rw [trimRight, if_neg h, trimRight, ih, if_neg h]

lemma isWs_head_dropWhile (l : List Char) (c : Char) (rest : List Char)
    (h : l.dropWhile isWs = c :: rest) : isWs c = false := by
  induction l with
  | nil => simp [List.dropWhile] at h
  | cons a t ih =>
    rw [List.dropWhile_cons] at h
    by_cases ha : isWs a = true
    · rw [if_pos ha] at h
      exact ih h
    · rw [if_neg ha] at h
      injection h with h1 h2
      subst h1
      simpa using ha

lemma trimList_map_lower (l : List Char) :
    trimList (l.map lowerChar) = (trimList l).map lowerChar := by
  unfold trimList
  rw [dropWhile_map_lower, trimRight_map_lower]

lemma dropWhile_trimRight_dropWhile (l : List Char) :
    (trimRight (l.dropWhile isWs)).dropWhile isWs = trimRight (l.dropWhile isWs) := by
  cases hm : l.dropWhile isWs with
  | nil => rfl
  | cons c rest =>
    have hc : isWs c = false := isWs_head_dropWhile l c rest hm
    by_cases h : ((trimRight rest).isEmpty && isWs c) = true
    · rw [hc] at h
      simp at h
    · rw [trimRight, if_neg h, List.dropWhile_cons, hc]
      simp

lemma trimList_idem (l : List Char) : trimList (trimList l) = trimList l := by
  unfold trimList
  rw [dropWhile_trimRight_dropWhile, trimRight_idem]

/-! ### Entity records (`types.ts`)

Timestamps (`created_at`) are modelled as natural numbers so that the
store's `created_at`-descending ordering is the usual order on `Nat`. -/

structure Item where
  id : String
  title : String
  description : String
  category : ItemCategory
  type : ItemType
  location : String
  date_occurred : String
  time_occurred : String
  contact_email : String
  image_url : Option String
  status : ItemStatus
  security_answer : String
  created_at : Nat
deriving DecidableEq, Repr

structure Claim where
  id : String
  item_id : String
  claimant_name : String
  claimant_email : String
  security_answer : String
  status : ClaimStatus
  created_at : Nat
deriving DecidableEq, Repr

/-- The validated report-wizard submission (`ReportFormData` in
`types.ts`).  Note that it carries no `status` field at all: the caller
of `createItem` cannot supply a status. -/
structure ReportFormData where
  type : ItemType
  category : ItemCategory
  title : String
  description : String
  date_occurred : String
  time_occurred : String
  location : String
  contact_email : String
  security_answer : String
deriving DecidableEq, Repr

/-- The row handed to the store by `createItem` (`actions.ts` lines
64–82); identifier and timestamp are assigned by the store. -/
structure ItemInsert where
  title : String
  description : String
  category : ItemCategory
  type : ItemType
  location : String
  date_occurred : String
  time_occurred : String
  contact_email : String
  image_url : Option String
  security_answer : String
  status : ItemStatus
deriving DecidableEq, Repr

/-- Embedding of the row built by `createItem(formData, imageUrl)`:
every field copied from the form record, `security_answer` normalized,
`image_url` the passed argument, `status` hard-coded to `pending`. -/
def createItemRow (formData : ReportFormData) (imageUrl : Option String) : ItemInsert :=
  { title := formData.title
    description := formData.description
    category := formData.category
    type := formData.type
    location := formData.location
    date_occurred := formData.date_occurred
    time_occurred := formData.time_occurred
    contact_email := formData.contact_email
    image_url := imageUrl
    security_answer := normalizeAnswer formData.security_answer
    status := ItemStatus.pending }

/-- The claim-submission payload accepted by `createClaim`
(`actions.ts` lines 135–140). -/
structure ClaimData where
  item_id : String
  claimant_name : String
  claimant_email : String
  security_answer : String
deriving DecidableEq, Repr

/-- The row handed to the store by `createClaim`. -/
structure ClaimInsert where
  item_id : String
  claimant_name : String
  claimant_email : String
  security_answer : String
  status : ClaimStatus
deriving DecidableEq, Repr

/-- Embedding of the row built by `createClaim(claimData)` (`actions.ts`
lines 141–147): the payload spread, `security_answer` normalized,
`status` hard-coded to `pending`.  The referenced item is not consulted:
the function does not read, let alone compare, the item's stored answer. -/
def createClaimRow (claimData : ClaimData) : ClaimInsert :=
  { item_id := claimData.item_id
    claimant_name := claimData.claimant_name
    claimant_email := claimData.claimant_email
    security_answer := normalizeAnswer claimData.security_answer
    status := ClaimStatus.pending }

/-! ### Status-update operations (`actions.ts` lines 91–103 and 173–185)

The store is a list of rows.  `storeOk = false` models the external
store failing, in which case the handler logs and returns `false` with
the rows unchanged; on success the update patch is applied to every row
whose `id` matches, with no inspection of the current status. -/

def updateItemStatus (storeOk : Bool) (rows : List Item) (id : String)
    (status : ItemStatus) : List Item × Bool :=
  if storeOk then
    (rows.map (fun i => if i.id == id then { i with status := status } else i), true)
  else
    (rows, false)

/-- The TypeScript signature restricts claim updates to the two terminal
statuses (`"approved" | "denied"`). -/
inductive ClaimDecision
  | approved
  | denied
deriving DecidableEq, Repr

def ClaimDecision.toStatus : ClaimDecision → ClaimStatus
  | .approved => ClaimStatus.approved
  | .denied => ClaimStatus.denied

def updateClaimStatus (storeOk : Bool) (rows : List Claim) (id : String)
    (status : ClaimDecision) : List Claim × Bool :=
  if storeOk then
    (rows.map (fun cl => if cl.id == id then { cl with status := status.toStatus } else cl),
      true)
  else
    (rows, false)

/-- Row lookup by identifier (the store's single-row select). -/
def findItem (rows : List Item) (id : String) : Option Item :=
  rows.find? (fun i => i.id == id)

def findClaim (rows : List Claim) (id : String) : Option Claim :=
  rows.find? (fun cl => cl.id == id)

/-! ### Admin dashboard rendering guards (`admin/page.tsx`)

The approve button is rendered only for `pending` items (line 363), the
mark-returned button only for `approved` items (line 379), and the
claim approve/deny buttons only for `pending` claims (line 464). -/

def showApproveButton (item : Item) : Bool :=
  item.status == ItemStatus.pending

def showReturnButton (item : Item) : Bool :=
  item.status == ItemStatus.approved

def showClaimActionButtons (cl : Claim) : Bool :=
  cl.status == ClaimStatus.pending

lemma findItem_update (rows : List Item) (id : String) (st : ItemStatus) :
    findItem (rows.map (fun i => if i.id == id then { i with status := st } else i)) id
      = (findItem rows id).map (fun r => { r with status := st }) := by
  induction rows with
  | nil => rfl
  | cons a t ih =>
    unfold findItem at ih ⊢
    simp only [List.map_cons]
    by_cases h : (a.id == id) = true
    · rw [if_pos h]
      have e1 : List.find? (fun i => i.id == id)
          (({ a with status := st } : Item)
            :: t.map (fun i => if i.id == id then { i with status := st } else i))
          = some { a with status := st } := List.find?_cons_of_pos _ h
      have e2 : List.find? (fun i => i.id == id) (a :: t) = some a :=
        List.find?_cons_of_pos _ h
      rw [e1, e2]
      rfl
    · rw [if_neg h]
      have e1 : List.find? (fun i => i.id == id)
          (a :: t.map (fun i => if i.id == id then { i with status := st } else i))
          = List.find? (fun i => i.id == id)
              (t.map (fun i => if i.id == id then { i with status := st } else i)) :=
        List.find?_cons_of_neg _ h
      have e2 : List.find? (fun i => i.id == id) (a :: t)
          = List.find? (fun i => i.id == id) t := List.find?_cons_of_neg _ h
      rw [e1, e2]
      exact ih

lemma findClaim_update (rows : List Claim) (id : String) (st : ClaimStatus) :
    findClaim (rows.map (fun cl => if cl.id == id then { cl with status := st } else cl)) id
      = (findClaim rows id).map (fun r => { r with status := st }) := by
  induction rows with
  | nil => rfl
  | cons a t ih =>
    unfold findClaim at ih ⊢
    simp only [List.map_cons]
    by_cases h : (a.id == id) = true
    · rw [if_pos h]
      have e1 : List.find? (fun cl => cl.id == id)
          (({ a with status := st } : Claim)
            :: t.map (fun cl => if cl.id == id then { cl with status := st } else cl))
          = some { a with status := st } := List.find?_cons_of_pos _ h
      have e2 : List.find? (fun cl => cl.id == id) (a :: t) = some a :=
        List.find?_cons_of_pos _ h
      rw [e1, e2]
      rfl
    · rw [if_neg h]
      have e1 : List.find? (fun cl => cl.id == id)
          (a :: t.map (fun cl => if cl.id == id then { cl with status := st } else cl))
          = List.find? (fun cl => cl.id == id)
              (t.map (fun cl => if cl.id == id then { cl with status := st } else cl)) :=
        List.find?_cons_of_neg _ h
      have e2 : List.find? (fun cl => cl.id == id) (a :: t)
          = List.find? (fun cl => cl.id == id) t := List.find?_cons_of_neg _ h
      rw [e1, e2]
      exact ih

/-! ### Item fetch operations (`actions.ts` lines 4–47)

`getItems` applies optional equality filters for `type`, `category` and
`status` and orders by `created_at` descending; `getAllItems` only
orders.  If the store errors, both log the error and return the empty
list. -/

/-- The `created_at`-descending store ordering. -/
def createdDesc (a b : Item) : Prop :=
  b.created_at ≤ a.created_at

instance : DecidableRel createdDesc :=
  fun a b => Nat.decLe b.created_at a.created_at

instance : IsTotal Item createdDesc :=
  ⟨fun a b => Nat.le_total b.created_at a.created_at⟩

instance : IsTrans Item createdDesc :=
  ⟨fun _ _ _ h1 h2 => Nat.le_trans h2 h1⟩

/-- The optional equality predicates of the `getItems` query. -/
def filterRows (rows : List Item) (ftype : Option ItemType)
    (fcategory : Option ItemCategory) (fstatus : Option ItemStatus) : List Item :=
  let r1 := match ftype with
    | some t => rows.filter (fun i => i.type == t)
    | none => rows
  let r2 := match fcategory with
    | some c => r1.filter (fun i => i.category == c)
    | none => r1
  match fstatus with
  | some s => r2.filter (fun i => i.status == s)
  | none => r2

def getItems (res : Except String (List Item)) (ftype : Option ItemType)
    (fcategory : Option ItemCategory) (fstatus : Option ItemStatus) : List Item :=
  match res with
  | Except.error _ => []
  | Except.ok rows => List.insertionSort createdDesc (filterRows rows ftype fcategory fstatus)

def getAllItems (res : Except String (List Item)) : List Item :=
  match res with
  | Except.error _ => []
  | Except.ok rows => List.insertionSort createdDesc rows

/-! ### Browse-page search and filter pipeline (`report/page.tsx` browse part)

The fuzzy search library is external; its relevance-ranked output for a
query is represented by an opaque function `fuseResult`.  The pipeline
(lines 588–607) starts from the fetched items, replaces them by the
ranked result when the trimmed query is non-empty, then narrows with the
type and the category exact-match filters (the literal "all" choice is
modelled as `none`). -/

def applyTypeFilter (l : List Item) : Option ItemType → List Item
  | some t => l.filter (fun item => item.type == t)
  | none => l

def applyCategoryFilter (l : List Item) : Option ItemCategory → List Item
  | some c => l.filter (fun item => item.category == c)
  | none => l

def filteredItems (fuseResult : String → List Item) (items : List Item)
    (searchQuery : String) (filterType : Option ItemType)
    (filterCategory : Option ItemCategory) : List Item :=
  applyCategoryFilter
    (applyTypeFilter
      (if (trimList searchQuery.data).isEmpty then items else fuseResult searchQuery)
      filterType)
    filterCategory

lemma applyTypeFilter_sublist (l : List Item) (ft : Option ItemType) :
    List.Sublist (applyTypeFilter l ft) l := by
  cases ft with
  | none => exact List.Sublist.refl l
  | some t => exact List.filter_sublist l

lemma applyCategoryFilter_sublist (l : List Item) (fc : Option ItemCategory) :
    List.Sublist (applyCategoryFilter l fc) l := by
  cases fc with
  | none => exact List.Sublist.refl l
  | some c => exact List.filter_sublist l

lemma filteredItems_sublist (f : String → List Item) (items : List Item)
    (q : String) (ft : Option ItemType) (fc : Option ItemCategory) :
    List.Sublist (filteredItems f items q ft fc)
      (if (trimList q.data).isEmpty then items else f q) :=
  List.Sublist.trans
    (applyCategoryFilter_sublist _ fc)
    (applyTypeFilter_sublist _ ft)

/-! ### Analytics aggregation (`actions.ts` lines 207–231) -/

structure Analytics where
  totalItems : Nat
  lostItems : Nat
  foundItems : Nat
  returnedItems : Nat
  pendingItems : Nat
  totalClaims : Nat
deriving DecidableEq, Repr

def getAnalytics (items : List Item) (claims : List Claim) : Analytics :=
  { totalItems := items.length
    lostItems := (items.filter (fun i => i.type == ItemType.lost)).length
    foundItems := (items.filter (fun i => i.type == ItemType.found)).length
    returnedItems := (items.filter (fun i => i.status == ItemStatus.returned)).length
    pendingItems := (items.filter (fun i => i.status == ItemStatus.pending)).length
    totalClaims := claims.length }

/-! ### Report intake validation (`types.ts` lines 61–96)

The four wizard stages are zod schemas over disjoint field groups of the
aggregate record; each is embedded as a boolean predicate on the
aggregate.  `z.string().min(n)` and `.max(n)` are length bounds; the
`z.string().email()` syntax check is embedded below following the zod
email pattern (local part from letters, digits, underscore, apostrophe,
plus, hyphen and dot, not starting with a dot, no consecutive dots, not
ending with a dot or apostrophe; domain of one or more labels that start
alphanumeric and continue alphanumeric or hyphen, ending in an alphabetic
top-level label of at least two characters). -/

def isDigitChar (c : Char) : Bool :=
  decide (48 ≤ c.toNat) && decide (c.toNat ≤ 57)

def isAlphaChar (c : Char) : Bool :=
  (decide (65 ≤ c.toNat) && decide (c.toNat ≤ 90))
    || (decide (97 ≤ c.toNat) && decide (c.toNat ≤ 122))

def isAlphaNumChar (c : Char) : Bool :=
  isAlphaChar c || isDigitChar c

/-- Characters allowed anywhere in the email local part:
alphanumerics, underscore (95), apostrophe (39), plus (43), hyphen (45)
and dot (46). -/
def isLocalChar (c : Char) : Bool :=
  isAlphaNumChar c || c.toNat == 95 || c.toNat == 39 || c.toNat == 43
    || c.toNat == 45 || c.toNat == 46

/-- Characters allowed as the final character of the local part (no dot,
no apostrophe). -/
def isLocalLastChar (c : Char) : Bool :=
  isAlphaNumChar c || c.toNat == 95 || c.toNat == 43 || c.toNat == 45

def noDoubleDot : List Char → Bool
  | [] => true
  | [_] => true
  | a :: b :: rest =>
    !(a.toNat == 46 && b.toNat == 46) && noDoubleDot (b :: rest)

def localOk (l : List Char) : Bool :=
  (match l.head? with
    | some c => !(c.toNat == 46)
    | none => false)
  && l.all isLocalChar
  && (match l.getLast? with
    | some c => isLocalLastChar c
    | none => false)
  && noDoubleDot l

def splitOnDot : List Char → List (List Char)
  | [] => [[]]
  | c :: rest =>
    if c.toNat == 46 then
      [] :: splitOnDot rest
    else
      match splitOnDot rest with
      | [] => [[c]]
      | h :: t => (c :: h) :: t

def labelOk : List Char → Bool
  | [] => false
  | c :: cs => isAlphaNumChar c && cs.all (fun d => isAlphaNumChar d || d.toNat == 45)

def tldOk (l : List Char) : Bool :=
  decide (2 ≤ l.length) && l.all isAlphaChar

def domainOk (l : List Char) : Bool :=
  match (splitOnDot l).reverse with
  | tld :: rest =>
    match rest with
    | [] => false
    | _ :: _ => tldOk tld && rest.all labelOk
  | [] => false

/-- Embedding of the zod email syntax check used by
`z.string().email(...)`. -/
def zodEmailCheck (s : String) : Bool :=
  let beforeAt := s.data.takeWhile (fun c => !(c.toNat == 64))
  let fromAt := s.data.dropWhile (fun c => !(c.toNat == 64))
  match fromAt with
  | [] => false
  | _ :: domainPart => localOk beforeAt && domainOk domainPart

/-- Classification stage: `type`, `category` (required enums — carried
by the record type itself) and `title` of 3–100 characters. -/
def reportStep1Valid (r : ReportFormData) : Bool :=
  decide (3 ≤ r.title.length) && decide (r.title.length ≤ 100)

/-- Context stage: non-empty date, time and location, description of
10–500 characters. -/
def reportStep2Valid (r : ReportFormData) : Bool :=
  decide (1 ≤ r.date_occurred.length) && decide (1 ≤ r.time_occurred.length)
    && decide (1 ≤ r.location.length) && decide (10 ≤ r.description.length)
    && decide (r.description.length ≤ 500)

/-- Media stage: the optional image has no required fields. -/
def reportStep3Valid (_ : ReportFormData) : Bool :=
  true

/-- Contact and verification stage: valid email syntax and a security
answer of 3–200 characters. -/
def reportStep4Valid (r : ReportFormData) : Bool :=
  zodEmailCheck r.contact_email && decide (3 ≤ r.security_answer.length)
    && decide (r.security_answer.length ≤ 200)

/-- The merged full-record schema validated at final submission. -/
def fullReportValid (r : ReportFormData) : Bool :=
  reportStep1Valid r && reportStep2Valid r && reportStep3Valid r && reportStep4Valid r

/-! ### Concrete sample rows used by counterexamples and witnesses -/

def demoReturnedItem : Item :=
  { id := "i1"
    title := "Blue Hydroflask Water Bottle"
    description := "A blue 32oz Hydroflask water bottle with stickers on it."
    category := ItemCategory.accessories
    type := ItemType.found
    location := "Cafeteria"
    date_occurred := "2026-02-14"
    time_occurred := "12:30 PM"
    contact_email := "finder@school.edu"
    image_url := none
    status := ItemStatus.returned
    security_answer := "stickers of mountains and a sunrise"
    created_at := 5 }

def demoApprovedClaim : Claim :=
  { id := "c1"
    item_id := "i1"
    claimant_name := "Jordan M"
    claimant_email := "jm@school.edu"
    security_answer := "blue silicone cover"
    status := ClaimStatus.approved
    created_at := 9 }

/-- The AirPods end-to-end scenario record from the spec (section 8);
its description is exactly 34 characters long. -/
def airpodsForm : ReportFormData :=
  { type := ItemType.lost
    category := ItemCategory.electronics
    title := "AirPods Pro Case"
    description := "White AirPods Pro case blue cover."
    date_occurred := "2026-02-15"
    time_occurred := "2:00 PM"
    location := "Library"
    contact_email := "student2@school.edu"
    security_answer := "Blue Silicone Cover" }

/-! ### Claims -/

/-- C1: counterexample.  The claim says approving an item whose stored
status is `returned` is rejected and leaves the status unchanged.  In
the code `updateItemStatus` applies the patch without reading the
current status: on the one-row store holding `demoReturnedItem` (status
`returned`), the approve call reports success and the stored status
afterwards is `approved`, not `returned`. -/
theorem C1_approve_on_returned_succeeds :
    demoReturnedItem.status = ItemStatus.returned ∧
    (updateItemStatus true [demoReturnedItem] "i1" ItemStatus.approved).2 = true ∧
    findItem (updateItemStatus true [demoReturnedItem] "i1" ItemStatus.approved).1 "i1"
      = some { demoReturnedItem with status := ItemStatus.approved } := by
  decide

/-- C1 (amended): `updateItemStatus` performs no transition check — for
any stored item it reports success and overwrites the status with the
requested one regardless of the prior status; the
pending→approved→returned discipline exists only in the admin UI, which
renders the approve control exactly for `pending` items and the
mark-returned control exactly for `approved` items. -/
theorem C1_item_update_ignores_prior_status
    (rows : List Item) (id : String) (st : ItemStatus) (r : Item)
    (h : findItem rows id = some r) :
    (updateItemStatus true rows id st).2 = true ∧
    findItem (updateItemStatus true rows id st).1 id = some { r with status := st } ∧
    (showApproveButton r = true ↔ r.status = ItemStatus.pending) ∧
    (showReturnButton r = true ↔ r.status = ItemStatus.approved) := by
  refine ⟨rfl, ?_, ?_, ?_⟩
  · show findItem (rows.map (fun i => if i.id == id then { i with status := st } else i)) id
      = some { r with status := st }
    rw [findItem_update, h]
    rfl
  · simp [showApproveButton]
  · simp [showReturnButton]

/-- C1 witness: the amended theorem applied to the concrete one-row
store holding the returned demo item. -/
theorem C1_item_update_ignores_prior_status_witness :
    findItem [demoReturnedItem] "i1" = some demoReturnedItem ∧
    ((updateItemStatus true [demoReturnedItem] "i1" ItemStatus.approved).2 = true ∧
     findItem (updateItemStatus true [demoReturnedItem] "i1" ItemStatus.approved).1 "i1"
       = some { demoReturnedItem with status := ItemStatus.approved } ∧
     (showApproveButton demoReturnedItem = true
       ↔ demoReturnedItem.status = ItemStatus.pending) ∧
     (showReturnButton demoReturnedItem = true
       ↔ demoReturnedItem.status = ItemStatus.approved)) :=
  ⟨by decide,
    C1_item_update_ignores_prior_status [demoReturnedItem] "i1" ItemStatus.approved
      demoReturnedItem (by decide)⟩

/-- C2: counterexample.  The claim says a transition attempt on a claim
already in a terminal status is rejected at the controller boundary and
leaves the status unchanged.  `updateClaimStatus` applies the patch
without reading the current status: on the one-row store holding
`demoApprovedClaim` (status `approved`), the deny call reports success
and the stored status afterwards is `denied`. -/
theorem C2_redecide_terminal_claim_succeeds :
    demoApprovedClaim.status = ClaimStatus.approved ∧
    (updateClaimStatus true [demoApprovedClaim] "c1" ClaimDecision.denied).2 = true ∧
    findClaim (updateClaimStatus true [demoApprovedClaim] "c1" ClaimDecision.denied).1 "c1"
      = some { demoApprovedClaim with status := ClaimStatus.denied } := by
  decide

/-- C2 (amended): `updateClaimStatus` performs no transition check — for
any stored claim it reports success and overwrites the status with the
requested terminal status regardless of the prior status; the
exactly-once discipline exists only in the admin UI, which renders the
approve/deny controls exactly for `pending` claims. -/
theorem C2_claim_update_ignores_terminal_status
    (rows : List Claim) (id : String) (d : ClaimDecision) (r : Claim)
    (h : findClaim rows id = some r) :
    (updateClaimStatus true rows id d).2 = true ∧
    findClaim (updateClaimStatus true rows id d).1 id
      = some { r with status := d.toStatus } ∧
    (showClaimActionButtons r = true ↔ r.status = ClaimStatus.pending) := by
  refine ⟨rfl, ?_, ?_⟩
  · show findClaim
        (rows.map (fun cl => if cl.id == id then { cl with status := d.toStatus } else cl)) id
      = some { r with status := d.toStatus }
    rw [findClaim_update, h]
    rfl
  · simp [showClaimActionButtons]

/-- C2 witness: the amended theorem applied to the concrete one-row
store holding the already-approved demo claim. -/
theorem C2_claim_update_ignores_terminal_status_witness :
    findClaim [demoApprovedClaim] "c1" = some demoApprovedClaim ∧
    ((updateClaimStatus true [demoApprovedClaim] "c1" ClaimDecision.denied).2 = true ∧
     findClaim (updateClaimStatus true [demoApprovedClaim] "c1" ClaimDecision.denied).1 "c1"
       = some { demoApprovedClaim with status := ClaimStatus.denied } ∧
     (showClaimActionButtons demoApprovedClaim = true
       ↔ demoApprovedClaim.status = ClaimStatus.pending)) :=
  ⟨by decide,
    C2_claim_update_ignores_terminal_status [demoApprovedClaim] "c1" ClaimDecision.denied
      demoApprovedClaim (by decide)⟩

/-- C3: for every validated report record and every image URL argument
the row handed to the store by `createItem` has status `pending` (the
form record carries no status field, so no caller-supplied status can
appear), the normalized security answer, and exactly the passed image
URL; the AirPods scenario yields status `pending`, security answer
"blue silicone cover" and no image URL. -/
theorem C3_createItem_pending_normalized :
    (∀ (fd : ReportFormData) (imageUrl : Option String),
      fullReportValid fd = true →
        (createItemRow fd imageUrl).status = ItemStatus.pending ∧
        (createItemRow fd imageUrl).security_answer = normalizeAnswer fd.security_answer ∧
        (createItemRow fd imageUrl).image_url = imageUrl) ∧
    (createItemRow airpodsForm none).status = ItemStatus.pending ∧
    (createItemRow airpodsForm none).security_answer = "blue silicone cover" ∧
    (createItemRow airpodsForm none).image_url = none := by
  refine ⟨fun fd imageUrl _ => ⟨rfl, rfl, rfl⟩, rfl, by decide, rfl⟩

/-- C3 witness: the universal part applied to the validated AirPods
scenario record. -/
theorem C3_createItem_pending_normalized_witness :
    fullReportValid airpodsForm = true ∧
    ((createItemRow airpodsForm none).status = ItemStatus.pending ∧
     (createItemRow airpodsForm none).security_answer
       = normalizeAnswer airpodsForm.security_answer ∧
     (createItemRow airpodsForm none).image_url = none) :=
  ⟨by decide, C3_createItem_pending_normalized.1 airpodsForm none (by decide)⟩

/-- C4: the normalization shared by item and claim creation (lower-case
then trim in the code) equals trim-then-lower-case for every string, is
idempotent, and sends " ABC " to "abc". -/
theorem C4_normalization_trim_lower_idempotent :
    (∀ s : String, normalizeAnswer s = specNormalize s) ∧
    (∀ s : String, normalizeAnswer (normalizeAnswer s) = normalizeAnswer s) ∧
    normalizeAnswer " ABC " = "abc" := by
  refine ⟨fun s => ?_, fun s => ?_, by decide⟩
  · unfold normalizeAnswer specNormalize
    rw [trimList_map_lower]
  · show String.mk (trimList ((trimList (s.data.map lowerChar)).map lowerChar))
      = String.mk (trimList (s.data.map lowerChar))
    rw [← trimList_map_lower, map_lowerChar_idem, trimList_idem]

/-- C7: `createClaim` never auto-approves.  The row built by
`createClaimRow` has status `pending` for every submission; the function
receives only the submission payload — the item's stored answer is not
among its inputs — so no answer comparison can influence the stored
status, which is the constant `pending`. -/
theorem C7_createClaim_never_auto_approves :
    ∀ cd : ClaimData,
      (createClaimRow cd).status = ClaimStatus.pending ∧
      (createClaimRow cd).security_answer = normalizeAnswer cd.security_answer :=
  fun _ => ⟨rfl, rfl⟩
/-- C5: structured filters narrow after ranking.  For every ranking
function, store contents, query and filter settings: when the trimmed
query is non-empty the pipeline output is a subsequence of the ranked
result (relevance order preserved among survivors); when it is empty the
output is a subsequence of the fetched collection, which is in
`created_at`-descending store order, and so is the output. -/
theorem C5_filters_after_ranking
    (fuseResult : String → List Item) (store : List Item) (q : String)
    (ft : Option ItemType) (fc : Option ItemCategory) :
    ((trimList q.data).isEmpty = false →
      List.Sublist
        (filteredItems fuseResult
          (getItems (Except.ok store) none none (some ItemStatus.approved)) q ft fc)
        (fuseResult q)) ∧
    ((trimList q.data).isEmpty = true →
      List.Sublist
        (filteredItems fuseResult
          (getItems (Except.ok store) none none (some ItemStatus.approved)) q ft fc)
        (getItems (Except.ok store) none none (some ItemStatus.approved)) ∧
      List.Pairwise createdDesc
        (filteredItems fuseResult
          (getItems (Except.ok store) none none (some ItemStatus.approved)) q ft fc)) ∧
    List.Pairwise createdDesc
      (getItems (Except.ok store) none none (some ItemStatus.approved)) := by
  have hsor : List.Pairwise createdDesc
      (getItems (Except.ok store) none none (some ItemStatus.approved)) :=
    List.sorted_insertionSort createdDesc _
  refine ⟨fun h => ?_, fun h => ?_, hsor⟩
  · have hs := filteredItems_sublist fuseResult
      (getItems (Except.ok store) none none (some ItemStatus.approved)) q ft fc
    rw [if_neg (by simp [h])] at hs
    exact hs
  · have hs := filteredItems_sublist fuseResult
      (getItems (Except.ok store) none none (some ItemStatus.approved)) q ft fc
    rw [if_pos h] at hs
    exact ⟨hs, List.Pairwise.sublist hs hsor⟩

/-- C5 witness: the non-empty-query part of the theorem applied at a
concrete ranking function, store and query. -/
theorem C5_filters_after_ranking_witness :
    (trimList "bottle".data).isEmpty = false ∧
    List.Sublist
      (filteredItems (fun _ => [demoReturnedItem])
        (getItems (Except.ok [demoReturnedItem]) none none (some ItemStatus.approved))
        "bottle" none none)
      [demoReturnedItem] :=
  ⟨by decide,
    (C5_filters_after_ranking (fun _ => [demoReturnedItem]) [demoReturnedItem]
      "bottle" none none).1 (by decide)⟩

/-- C6: the search/filter pipeline is deterministic — with the ranking
index built from the same item collection, identical item collections,
query strings and filter settings always produce the identical ordered
output; the pipeline is a pure function of its inputs. -/
theorem C6_pipeline_deterministic
    (fuseImpl : List Item → String → List Item)
    (items1 items2 : List Item) (q1 q2 : String)
    (ft1 ft2 : Option ItemType) (fc1 fc2 : Option ItemCategory)
    (hitems : items1 = items2) (hq : q1 = q2) (hft : ft1 = ft2) (hfc : fc1 = fc2) :
    filteredItems (fuseImpl items1) items1 q1 ft1 fc1
      = filteredItems (fuseImpl items2) items2 q2 ft2 fc2 := by
  subst hitems
  subst hq
  subst hft
  subst hfc
  rfl

/-- C6 witness: the theorem applied to two runs on the same concrete
collection, query and filters. -/
theorem C6_pipeline_deterministic_witness :
    ([demoReturnedItem] : List Item) = [demoReturnedItem] ∧
    filteredItems ((fun _ _ => []) [demoReturnedItem]) [demoReturnedItem] "bottle" none none
      = filteredItems ((fun _ _ => []) [demoReturnedItem]) [demoReturnedItem] "bottle"
          none none :=
  ⟨rfl,
    C6_pipeline_deterministic (fun _ _ => []) [demoReturnedItem] [demoReturnedItem]
      "bottle" "bottle" none none none none rfl rfl rfl rfl⟩

/-- C8: counterexample.  The claim says a store failure is surfaced as a
generic operation-failed outcome distinguishable from a successful empty
result; in the code both fetch operations log the error and then return
the empty list, the very value a successful empty fetch returns. -/
theorem C8_error_equals_empty_success :
    getAllItems (Except.error "store unavailable") = getAllItems (Except.ok []) ∧
    getItems (Except.error "store unavailable") none none (some ItemStatus.approved)
      = getItems (Except.ok []) none none (some ItemStatus.approved) :=
  ⟨rfl, rfl⟩

/-- C8 (amended): on a store failure `getItems` and `getAllItems` log
the error and return the empty list; the error outcome therefore
coincides with a successful empty fetch and is not distinguishable from
it in the returned value. -/
theorem C8_store_error_returns_empty :
    ∀ (e : String) (ft : Option ItemType) (fc : Option ItemCategory)
      (fs : Option ItemStatus),
      getItems (Except.error e) ft fc fs = [] ∧
      getAllItems (Except.error e) = [] ∧
      getItems (Except.ok []) ft fc fs = [] ∧
      getAllItems (Except.ok []) = [] := by
  intro e ft fc fs
  refine ⟨rfl, rfl, ?_, rfl⟩
  show List.insertionSort createdDesc (filterRows [] ft fc fs) = []
  cases ft <;> cases fc <;> cases fs <;> rfl
/-! ### Concrete intake records for C9 (variations of the AirPods record) -/

def descFiveForm : ReportFormData :=
  { airpodsForm with description := "short" }

def descTenForm : ReportFormData :=
  { airpodsForm with description := "ten chars." }

def badEmailForm : ReportFormData :=
  { airpodsForm with contact_email := "not-an-email" }

def goodEmailForm : ReportFormData :=
  { airpodsForm with contact_email := "a@b.edu" }

/-- C9: the Context-stage validator rejects every record whose
description has 5 characters and accepts the concrete record with a
10-character description; the Contact & Verification-stage validator
rejects every record with contact email "not-an-email" and accepts the
concrete record with email "a@b.edu". -/
theorem C9_intake_validation_bounds :
    (∀ r : ReportFormData, r.description.length = 5 → reportStep2Valid r = false) ∧
    (∀ r : ReportFormData, r.contact_email = "not-an-email" → reportStep4Valid r = false) ∧
    descFiveForm.description.length = 5 ∧
    descTenForm.description.length = 10 ∧
    reportStep2Valid descFiveForm = false ∧
    reportStep2Valid descTenForm = true ∧
    reportStep4Valid badEmailForm = false ∧
    reportStep4Valid goodEmailForm = true := by
  refine ⟨fun r h => ?_, fun r h => ?_, by decide, by decide, by decide, by decide,
    by decide, by decide⟩
  · unfold reportStep2Valid
    rw [h]
    simp
  · unfold reportStep4Valid
    rw [h]
    have hb : zodEmailCheck "not-an-email" = false := by decide
    rw [hb]
    simp

/-- C9 witness: the two universally quantified rejection parts applied
to the concrete five-character-description and bad-email records. -/
theorem C9_intake_validation_bounds_witness :
    (descFiveForm.description.length = 5 ∧ reportStep2Valid descFiveForm = false) ∧
    (badEmailForm.contact_email = "not-an-email" ∧ reportStep4Valid badEmailForm = false) :=
  ⟨⟨by decide, C9_intake_validation_bounds.1 descFiveForm (by decide)⟩,
    ⟨rfl, C9_intake_validation_bounds.2.1 badEmailForm rfl⟩⟩

lemma length_eq_lost_add_found (items : List Item) :
    items.length = (items.filter (fun i => i.type == ItemType.lost)).length
      + (items.filter (fun i => i.type == ItemType.found)).length := by
  induction items with
  | nil => rfl
  | cons a t ih =>
    cases ha : a.type with
    | lost =>
      simp only [List.filter_cons, ha, List.length_cons]
      rw [if_pos (by decide), if_neg (by decide)]
      simp only [List.length_cons]
      omega
    | found =>
      simp only [List.filter_cons, ha, List.length_cons]
      rw [if_neg (by decide), if_pos (by decide)]
      simp only [List.length_cons]
      omega

/-- C10: the analytics aggregation is a pure projection — the total item
count equals the lost count plus the found count, each reported count
equals the number of rows satisfying the corresponding type or status
predicate, and the claim total equals the number of claim rows; the
input collections are untouched. -/
theorem C10_analytics_counts (items : List Item) (claims : List Claim) :
    (getAnalytics items claims).totalItems
      = (getAnalytics items claims).lostItems + (getAnalytics items claims).foundItems ∧
    (getAnalytics items claims).totalItems = items.length ∧
    (getAnalytics items claims).lostItems
      = items.countP (fun i => i.type == ItemType.lost) ∧
    (getAnalytics items claims).foundItems
      = items.countP (fun i => i.type == ItemType.found) ∧
    (getAnalytics items claims).returnedItems
      = items.countP (fun i => i.status == ItemStatus.returned) ∧
    (getAnalytics items claims).pendingItems
      = items.countP (fun i => i.status == ItemStatus.pending) ∧
    (getAnalytics items claims).totalClaims = claims.length := by
  refine ⟨length_eq_lost_add_found items, rfl,
    (List.countP_eq_length_filter _ items).symm,
    (List.countP_eq_length_filter _ items).symm,
    (List.countP_eq_length_filter _ items).symm,
    (List.countP_eq_length_filter _ items).symm, rfl⟩
